import Mathlib

/-!
Shallow embedding of the `genai-safety-analyst` content-safety pipeline:

* `src/pipelines/analysis_pipeline.py` — `AnalysisPipeline.analyze`
* `src/utils/guardrails.py`            — `enforce_guardrails`, `_get_client_ip`
* `src/agents/classifier_agent.py`     — `ClassifierAgent.__init__`, `ClassifierResult`
* `src/agents/compliance_agent.py`     — `ComplianceAgent.__init__`, `ComplianceResult`
* `src/api/main.py`                    — `analyze_content`, `get_pipeline`

The three remote collaborators (classifier / retriever / compliance) are
external LLM or vector-search calls; they are modelled as oracle functions
supplied as parameters.  Python floats (`time.time()` timestamps, confidence
scores) are modelled as rationals; Python exceptions are modelled with
`Except`.
-/

namespace SafetyAnalyst

/-- ASCII apostrophe, used to build the templated reason string without any
quote-escaping in string literals. -/
def squote : String := String.singleton (Char.ofNat 39)

/-- Python `str.strip()`: the string with leading and trailing whitespace
removed (an executable model over the character list, so that concrete
instances evaluate). -/
def pyStrip (s : String) : String :=
  String.mk (((s.data.dropWhile Char.isWhitespace).reverse.dropWhile
    Char.isWhitespace).reverse)

/-- Structured output of the classifier collaborator
(`ClassifierResult` in `classifier_agent.py`). -/
structure ClassifierResult where
  category : String
  needs_review : Bool
  explanation : String
deriving DecidableEq, Repr

/-- The enumerated decision label: `Literal["allowed", "flag", "block"]` of
`ComplianceResult` in `compliance_agent.py`. -/
inductive Label where
  | allowed
  | flag
  | block
deriving DecidableEq, Repr

/-- Structured output of the compliance collaborator
(`ComplianceResult` in `compliance_agent.py`).  The pydantic field constraint
`ge=0.0, le=1.0` on `confidence` is a validation performed by pydantic, stated
separately as `ComplianceResult.schemaValid`. -/
structure ComplianceResult where
  label : Label
  confidence : ℚ
  reasons : List String
deriving DecidableEq, Repr

/-- The pydantic validation attached to `ComplianceResult.confidence`
(`Field(..., ge=0.0, le=1.0)`): any value the collaborator actually returns
has been checked against it. -/
def ComplianceResult.schemaValid (r : ComplianceResult) : Prop :=
  0 ≤ r.confidence ∧ r.confidence ≤ 1

instance (r : ComplianceResult) : Decidable r.schemaValid := by
  unfold ComplianceResult.schemaValid; infer_instance

/-- One retrieved policy snippet (the dicts built in
`RetrieverAgent.run`). -/
structure RetrievedPolicy where
  policy_id : String
  title : String
  category : String
  severity : String
  snippet : String
  score : ℚ
deriving DecidableEq, Repr

/-- The `decision` dict assembled by `AnalysisPipeline.analyze`
(equivalently the `PolicyDecision` response schema of `main.py`). -/
structure PolicyDecision where
  label : Label
  confidence : ℚ
  category : String
  reasons : List String
deriving DecidableEq, Repr

/-- The dict returned by `AnalysisPipeline.analyze`
(`AnalysisResponse` shape: content_id + decision). -/
structure AnalysisResult where
  content_id : String
  decision : PolicyDecision
deriving DecidableEq, Repr

/-- A remote collaborator call that failed (network/auth/malformed response);
in Python this is an exception propagating out of `await ...run(...)`. -/
inductive CollabError where
  | failure (msg : String)
deriving DecidableEq, Repr

/-- The behaviour of the three external collaborators, as consumed by the
pipeline: `classify text`, `retrieve text category`,
`decide text category retrieved_policies`. -/
structure Collaborators where
  classify : String → Except CollabError ClassifierResult
  retrieve : String → String → Except CollabError (List RetrievedPolicy)
  decide : String → String → List RetrievedPolicy → Except CollabError ComplianceResult

/-- Which collaborator the pipeline invoked, in order.  `analyze` returns this
trace alongside its result so that invocation claims can be stated. -/
inductive Event where
  | classifyCall
  | retrieveCall
  | complianceCall
deriving DecidableEq, Repr

/-- The templated first reason of the short-circuit decision:
`f"Classifier categorized as '{category}' and determined no further review is needed."` -/
def shortCircuitReason (category : String) : String :=
  "Classifier categorized as " ++ squote ++ category ++ squote ++
    " and determined no further review is needed."

/-- The fixed short-circuit confidence `0.85` of
`analysis_pipeline.py` (a Python float literal, modelled as a rational). -/
def shortCircuitConfidence : ℚ := 85 / 100

namespace AnalysisPipeline

/-- Model of `AnalysisPipeline.analyze(content_id, text)` from
`src/pipelines/analysis_pipeline.py`, with the three agent `run` calls
replaced by the oracle functions in `c`.  Returns the list of collaborator
invocations (in order) together with the result; an exception from a
collaborator propagates, aborting the request. -/
def analyze (c : Collaborators) (content_id text : String) :
    List Event × Except CollabError AnalysisResult :=
  match c.classify text with
  | .error e => ([.classifyCall], .error e)
  | .ok cls =>
    let category := cls.category
    if cls.needs_review then
      match c.retrieve text category with
      | .error e => ([.classifyCall, .retrieveCall], .error e)
      | .ok retrieved_policies =>
        match c.decide text category retrieved_policies with
        | .error e => ([.classifyCall, .retrieveCall, .complianceCall], .error e)
        | .ok compliance =>
          ([.classifyCall, .retrieveCall, .complianceCall],
            .ok { content_id := content_id
                  decision :=
                    { label := compliance.label
                      confidence := compliance.confidence
                      category := category
                      reasons := compliance.reasons } })
    else
      ([.classifyCall],
        .ok { content_id := content_id
              decision :=
                { label := .allowed
                  confidence := shortCircuitConfidence
                  category := category
                  reasons :=
                    [shortCircuitReason category, cls.explanation] } })

end AnalysisPipeline

/-! ## Guardrails (`src/utils/guardrails.py`) -/

/-- Configuration read from the environment at module load:
`DEMO_TOKEN` (already `.strip()`ed, `""` when unset), `MAX_TEXT_CHARS`
(default 1200), `RATE_LIMIT_MAX_REQUESTS` (default 20),
`RATE_LIMIT_WINDOW_SECONDS` (default 60). -/
structure GuardConfig where
  demoToken : String
  maxTextChars : ℕ
  rateLimitMaxRequests : ℕ
  rateLimitWindowSeconds : ℕ
deriving DecidableEq, Repr

/-- The default configuration values hard-coded as fallbacks in
`guardrails.py`. -/
def defaultConfig : GuardConfig :=
  { demoToken := ""
    maxTextChars := 1200
    rateLimitMaxRequests := 20
    rateLimitWindowSeconds := 60 }

/-- The parts of the incoming HTTP `Request` that `enforce_guardrails` and
`_get_client_ip` read.  `none` models an absent header. -/
structure GuardRequest where
  headerDemoToken : Option String
  headerXForwardedFor : Option String
  clientHost : Option String
deriving DecidableEq, Repr

/-- Model of `_get_client_ip(request)`: take the first entry of `X-Forwarded-For` when
the header is present and non-empty (Python truthiness of the string), else the
direct connection host, else `"unknown"`. -/
def get_client_ip (req : GuardRequest) : String :=
  match req.headerXForwardedFor with
  | some xff =>
    if xff = "" then req.clientHost.getD "unknown"
    else pyStrip ((xff.splitOn ",").headD "")
  | none => req.clientHost.getD "unknown"

/-- The exceptions `enforce_guardrails` can raise.  `indexError` models the
`q[0]` lookup on an empty deque, reachable only when
`RATE_LIMIT_MAX_REQUESTS = 0`. -/
inductive GuardError where
  | unauthorized
  | validationError
  | payloadTooLarge
  | rateLimited (waitSeconds : ℤ)
  | indexError
deriving DecidableEq, Repr

/-- The module-level `_rate_store`, a map from client IP to its deque of
timestamps (front = oldest).  A key that was never inserted maps to `[]`,
which is observationally the Python `dict.get` / insert-empty behaviour. -/
def RateStore : Type := String → List ℚ

/-- The store with no recorded timestamps. -/
def RateStore.empty : RateStore := fun _ => []

/-- Point update of the store (the in-place mutation of `_rate_store[ip]`). -/
def RateStore.set (s : RateStore) (ip : String) (q : List ℚ) : RateStore :=
  fun k => if k = ip then q else s k

/-- Section 3 of `enforce_guardrails` (sliding-window rate limiting): evict
timestamps `< now - window` from the front of the client's deque
(`while q and q[0] < cutoff: q.popleft()`, i.e. `dropWhile`); when the
remaining count is at or above `RATE_LIMIT_MAX_REQUESTS`, raise 429 with
`wait = int(q[0] + window - now)` (`int` truncation equals `floor` here
because the surviving head is `≥ now - window`); otherwise append `now`.
`indexError` models the `q[0]` lookup on an empty deque, reachable only when
`RATE_LIMIT_MAX_REQUESTS = 0`. -/
def rateLimitCheck (cfg : GuardConfig) (ip : String) (now : ℚ) (store : RateStore) :
    Except GuardError Unit × RateStore :=
  let q := store ip
  let cutoff := now - (cfg.rateLimitWindowSeconds : ℚ)
  let q2 := q.dropWhile (fun t => t < cutoff)
  if cfg.rateLimitMaxRequests ≤ q2.length then
    match q2 with
    | [] => (.error .indexError, store.set ip q2)
    | t0 :: _ =>
      (.error (.rateLimited (t0 + (cfg.rateLimitWindowSeconds : ℚ) - now).floor),
        store.set ip q2)
  else
    (.ok (), store.set ip (q2 ++ [now]))

/-- Model of `enforce_guardrails(request, text)`.  Here `now` is the value of `time.time()`
(a float, modelled as a rational).  Checks run in source order:

1. demo-token gate (only when `DEMO_TOKEN` is configured);
2. empty/whitespace-only text → 400;
3. `len(text) > MAX_TEXT_CHARS` → 413;
4. sliding-window rate limit: evict timestamps `< now - window` from the
   front, reject with 429 when the remaining count is at or above the
   maximum (`wait = int(q[0] + window - now)`; `int` truncates toward zero,
   which equals `floor` here because the surviving head is `≥ now - window`),
   otherwise append `now`.

Returns the outcome together with the updated store. -/
def enforce_guardrails (cfg : GuardConfig) (req : GuardRequest) (text : String)
    (now : ℚ) (store : RateStore) : Except GuardError Unit × RateStore :=
  if cfg.demoToken ≠ "" ∧ pyStrip (req.headerDemoToken.getD "") ≠ cfg.demoToken then
    (.error .unauthorized, store)
  else if pyStrip text = "" then
    (.error .validationError, store)
  else if text.length > cfg.maxTextChars then
    (.error .payloadTooLarge, store)
  else
    rateLimitCheck cfg (get_client_ip req) now store

/-- A sequence of `enforce_guardrails` calls by the same requester with the
same text, at the listed times (mutating the shared `_rate_store` between
calls).  Returns the final store and the per-call outcomes in order. -/
def runCalls (cfg : GuardConfig) (req : GuardRequest) (text : String) :
    List ℚ → RateStore → RateStore × List (Except GuardError Unit)
  | [], store => (store, [])
  | t :: ts, store =>
    let r := enforce_guardrails cfg req text t store
    let rest := runCalls cfg req text ts r.2
    (rest.1, r.1 :: rest.2)

/-! ## Agent construction and the API layer
(`src/agents/*.py` constructors, `src/api/main.py`) -/

/-- The process environment, as read by `os.getenv`. -/
def Env : Type := String → Option String

/-- Raised by the agent constructors: `ValueError("GROQ_API_KEY not found ...")`. -/
inductive ConfigError where
  | missingApiKey
deriving DecidableEq, Repr

/-- The state `ClassifierAgent.__init__` builds (the `ChatGroq` client
holding the model name and key; the prompt template is a constant). -/
structure ClassifierAgent where
  modelName : String
  apiKey : String
deriving DecidableEq, Repr

/-- Model of `ClassifierAgent.__init__`: reads `GROQ_API_KEY`; `if not api_key` fires
on both an unset variable and an empty string. -/
def ClassifierAgent.init (env : Env) (modelName : String := "llama-3.1-8b-instant") :
    Except ConfigError ClassifierAgent :=
  match env "GROQ_API_KEY" with
  | none => .error .missingApiKey
  | some k => if k = "" then .error .missingApiKey else .ok ⟨modelName, k⟩

/-- The state `ComplianceAgent.__init__` builds. -/
structure ComplianceAgent where
  modelName : String
  apiKey : String
deriving DecidableEq, Repr

/-- Model of `ComplianceAgent.__init__`: same credential check as the classifier. -/
def ComplianceAgent.init (env : Env) (modelName : String := "llama-3.1-8b-instant") :
    Except ConfigError ComplianceAgent :=
  match env "GROQ_API_KEY" with
  | none => .error .missingApiKey
  | some k => if k = "" then .error .missingApiKey else .ok ⟨modelName, k⟩

/-- Model of `AnalysisPipeline.__init__`: constructs the classifier, the retriever
(no credential required: it only builds a `VectorStore`), then the compliance
agent; a `ValueError` from either LLM agent propagates. -/
def AnalysisPipeline.init (env : Env) :
    Except ConfigError (ClassifierAgent × ComplianceAgent) := do
  let classifier ← ClassifierAgent.init env
  let compliance ← ComplianceAgent.init env
  return (classifier, compliance)

/-- Importing `src.api.main` runs only `load_dotenv()`, `FastAPI(...)` and
`app.include_router(...)`; `get_pipeline` is defined (with `lru_cache`) but
not called, so no agent is constructed and no credential is read at startup.
The returned list is the set of routes registered at import time. -/
def appStartup (_env : Env) : Except ConfigError (List String) :=
  .ok ["/health", "/analyze"]

/-- A request-level failure of the `/analyze` endpoint: a guardrail
rejection, a `ValueError` from lazily constructing the pipeline, or a
collaborator failure inside the pipeline. -/
inductive ApiError where
  | guard (e : GuardError)
  | config (e : ConfigError)
  | collab (e : CollabError)
deriving DecidableEq, Repr

/-- Model of `analyze_content(request, item)` from `src/api/main.py`:
`enforce_guardrails` first (synchronously, before any collaborator work),
then `get_pipeline()` — which constructs the `AnalysisPipeline` lazily on
first use — then `pipeline.analyze`.  Returns the collaborator-invocation
trace, the outcome, and the updated rate store. -/
def analyze_content (env : Env) (c : Collaborators) (cfg : GuardConfig)
    (req : GuardRequest) (item_id text : String) (now : ℚ) (store : RateStore) :
    List Event × Except ApiError AnalysisResult × RateStore :=
  match enforce_guardrails cfg req text now store with
  | (.error e, store2) => ([], .error (.guard e), store2)
  | (.ok _, store2) =>
    match AnalysisPipeline.init env with
    | .error e => ([], .error (.config e), store2)
    | .ok _ =>
      match AnalysisPipeline.analyze c item_id text with
      | (events, .error e) => (events, .error (.collab e), store2)
      | (events, .ok result) => (events, .ok result, store2)

/-! ## Concrete fixtures (mirroring `tests/test_pipeline.py`) -/

/-- Collaborator behaviour of `test_pipeline_short_circuit_allowed`: the
classifier says benign / no review; retriever and compliance would fail if
ever reached. -/
def benignCollab : Collaborators :=
  { classify := fun _ =>
      .ok { category := "benign", needs_review := false, explanation := "Clearly harmless." }
    retrieve := fun _ _ => .error (.failure "retriever should not run")
    decide := fun _ _ _ => .error (.failure "compliance should not run") }

/-- The policy snippet returned by the mocked retriever in
`test_pipeline_full_flow_flag`. -/
def harassmentPolicy : RetrievedPolicy :=
  { policy_id := "p1"
    title := "Harassment and Bullying"
    category := "harassment"
    severity := "medium"
    snippet := "Harassment policy snippet..."
    score := 12 / 100 }

/-- Collaborator behaviour of `test_pipeline_full_flow_flag`: harassment /
needs review, one retrieved policy, compliance flags with confidence 0.8. -/
def flagCollab : Collaborators :=
  { classify := fun _ =>
      .ok { category := "harassment", needs_review := true, explanation := "Targeted insult." }
    retrieve := fun _ _ => .ok [harassmentPolicy]
    decide := fun _ _ _ =>
      .ok { label := .flag, confidence := 8 / 10,
            reasons := ["Matches harassment policy p1."] } }

/-- A schema-valid compliance behaviour whose reasons do not mention the
classifier explanation: classifier needs review with explanation
`"Targeted insult."`; compliance returns two policy-grounded reasons. -/
def reviewCollab : Collaborators :=
  { classify := fun _ =>
      .ok { category := "harassment", needs_review := true, explanation := "Targeted insult." }
    retrieve := fun _ _ => .ok [harassmentPolicy]
    decide := fun _ _ _ =>
      .ok { label := .flag, confidence := 1 / 2,
            reasons := ["Policy p1 applies.", "Severity is medium."] } }

/-- An environment with no variables set (in particular no `GROQ_API_KEY`). -/
def emptyEnv : Env := fun _ => none

/-- An environment supplying only the required API credential. -/
def keyedEnv : Env := fun v => if v = "GROQ_API_KEY" then some "demo-key" else none

/-- A benign request: no demo token supplied, direct connection from
`127.0.0.1`, no forwarding header. -/
def localRequest : GuardRequest :=
  { headerDemoToken := none
    headerXForwardedFor := none
    clientHost := some "127.0.0.1" }

/-! ## Theorems -/

/-- Every `Label` value is one of the three enumerated ones. -/
theorem Label.eq_allowed_or_flag_or_block (l : Label) :
    l = .allowed ∨ l = .flag ∨ l = .block := by
  cases l <;> simp

/-- C1: when classification returns `needs_review = false`, `analyze` returns
the short-circuit decision — label `allowed`, confidence exactly `0.85`,
category the classified category, reasons exactly the templated sentence
naming the category followed by the classifier explanation — and the
invocation trace contains only the classifier call, so neither the retriever
nor the compliance collaborator is invoked. -/
theorem analyze_short_circuit (c : Collaborators) (content_id text : String)
    (cls : ClassifierResult) (hcls : c.classify text = .ok cls)
    (hnr : cls.needs_review = false) :
    AnalysisPipeline.analyze c content_id text =
      ([.classifyCall],
        .ok { content_id := content_id
              decision :=
                { label := .allowed
                  confidence := 85 / 100
                  category := cls.category
                  reasons := [shortCircuitReason cls.category, cls.explanation] } }) ∧
    Event.retrieveCall ∉ (AnalysisPipeline.analyze c content_id text).1 ∧
    Event.complianceCall ∉ (AnalysisPipeline.analyze c content_id text).1 := by
  have h : AnalysisPipeline.analyze c content_id text =
      ([.classifyCall],
        .ok { content_id := content_id
              decision :=
                { label := .allowed
                  confidence := 85 / 100
                  category := cls.category
                  reasons := [shortCircuitReason cls.category, cls.explanation] } }) := by
    unfold AnalysisPipeline.analyze
    rw [hcls]
    simp [hnr, shortCircuitConfidence]
  refine ⟨h, ?_, ?_⟩ <;> rw [h] <;> simp

/-- Witness for C1 at the short-circuit test fixture. -/
theorem analyze_short_circuit_witness :
    AnalysisPipeline.analyze benignCollab "x1" "hello world" =
      ([.classifyCall],
        .ok { content_id := "x1"
              decision :=
                { label := .allowed
                  confidence := 85 / 100
                  category := "benign"
                  reasons := [shortCircuitReason "benign", "Clearly harmless."] } }) ∧
    Event.retrieveCall ∉ (AnalysisPipeline.analyze benignCollab "x1" "hello world").1 ∧
    Event.complianceCall ∉ (AnalysisPipeline.analyze benignCollab "x1" "hello world").1 :=
  analyze_short_circuit benignCollab "x1" "hello world"
    { category := "benign", needs_review := false, explanation := "Clearly harmless." }
    rfl rfl

/-- C2: when classification returns `needs_review = true`, `analyze` invokes
the retriever and then the compliance collaborator, each exactly once and in
that order (the trace is exactly classify, retrieve, compliance), and the
decision's label, confidence and reasons are the compliance output verbatim,
with the classified category attached. -/
theorem analyze_full_path (c : Collaborators) (content_id text : String)
    (cls : ClassifierResult) (pols : List RetrievedPolicy) (comp : ComplianceResult)
    (hcls : c.classify text = .ok cls) (hnr : cls.needs_review = true)
    (hret : c.retrieve text cls.category = .ok pols)
    (hdec : c.decide text cls.category pols = .ok comp) :
    AnalysisPipeline.analyze c content_id text =
      ([.classifyCall, .retrieveCall, .complianceCall],
        .ok { content_id := content_id
              decision :=
                { label := comp.label
                  confidence := comp.confidence
                  category := cls.category
                  reasons := comp.reasons } }) ∧
    (AnalysisPipeline.analyze c content_id text).1.count .retrieveCall = 1 ∧
    (AnalysisPipeline.analyze c content_id text).1.count .complianceCall = 1 := by
  have h : AnalysisPipeline.analyze c content_id text =
      ([.classifyCall, .retrieveCall, .complianceCall],
        .ok { content_id := content_id
              decision :=
                { label := comp.label
                  confidence := comp.confidence
                  category := cls.category
                  reasons := comp.reasons } }) := by
    unfold AnalysisPipeline.analyze
    rw [hcls]
    simp only [hnr, if_true, hret, hdec]
  refine ⟨h, ?_, ?_⟩ <;> rw [h] <;> rfl

/-- Witness for C2 at the full-flow test fixture. -/
theorem analyze_full_path_witness :
    AnalysisPipeline.analyze flagCollab "x2" "you are disgusting" =
      ([.classifyCall, .retrieveCall, .complianceCall],
        .ok { content_id := "x2"
              decision :=
                { label := .flag
                  confidence := 8 / 10
                  category := "harassment"
                  reasons := ["Matches harassment policy p1."] } }) ∧
    (AnalysisPipeline.analyze flagCollab "x2" "you are disgusting").1.count .retrieveCall = 1 ∧
    (AnalysisPipeline.analyze flagCollab "x2" "you are disgusting").1.count .complianceCall = 1 :=
  analyze_full_path flagCollab "x2" "you are disgusting"
    { category := "harassment", needs_review := true, explanation := "Targeted insult." }
    [harassmentPolicy]
    { label := .flag, confidence := 8 / 10, reasons := ["Matches harassment policy p1."] }
    rfl rfl rfl rfl

/-- C3: assuming every compliance output satisfies its declared pydantic
schema (`0 ≤ confidence ≤ 1`; the label type is already the three-valued
enumeration), every successful result of `analyze` — short-circuit or full
path — has confidence in `[0, 1]` and a label among allowed/flag/block. -/
theorem analyze_decision_invariant (c : Collaborators) (content_id text : String)
    (events : List Event) (res : AnalysisResult)
    (hok : AnalysisPipeline.analyze c content_id text = (events, .ok res))
    (hschema : ∀ t cat pols comp, c.decide t cat pols = .ok comp → comp.schemaValid) :
    (0 ≤ res.decision.confidence ∧ res.decision.confidence ≤ 1) ∧
    (res.decision.label = .allowed ∨ res.decision.label = .flag ∨
      res.decision.label = .block) := by
  refine ⟨?_, Label.eq_allowed_or_flag_or_block _⟩
  unfold AnalysisPipeline.analyze at hok
  cases hc : c.classify text with
  | error e => rw [hc] at hok; simp at hok
  | ok cls =>
    rw [hc] at hok
    cases hnr : cls.needs_review with
    | true =>
      simp only [hnr, if_true] at hok
      cases hr : c.retrieve text cls.category with
      | error e => rw [hr] at hok; simp at hok
      | ok pols =>
        simp only [hr] at hok
        cases hd : c.decide text cls.category pols with
        | error e => simp [hd] at hok
        | ok comp =>
          simp only [hd] at hok
          have hv := hschema text cls.category pols comp hd
          simp only [Prod.mk.injEq, Except.ok.injEq] at hok
          obtain ⟨-, hres⟩ := hok
          subst hres
          exact hv
    | false =>
      simp only [hnr, Bool.false_eq_true, if_false] at hok
      simp only [Prod.mk.injEq, Except.ok.injEq] at hok
      obtain ⟨-, hres⟩ := hok
      subst hres
      constructor <;> norm_num [shortCircuitConfidence]

/-- Witness for C3 at the full-flow test fixture. -/
theorem analyze_decision_invariant_witness :
    (0 ≤ (8 / 10 : ℚ) ∧ (8 / 10 : ℚ) ≤ 1) ∧
    (Label.flag = Label.allowed ∨ Label.flag = Label.flag ∨ Label.flag = Label.block) :=
  analyze_decision_invariant flagCollab "x2" "you are disgusting"
    [.classifyCall, .retrieveCall, .complianceCall]
    { content_id := "x2"
      decision :=
        { label := .flag
          confidence := 8 / 10
          category := "harassment"
          reasons := ["Matches harassment policy p1."] } }
    rfl
    (by
      intro t cat pols comp h
      injection h with h2
      subst h2
      constructor <;> norm_num)

/-- C7 counterexample: a review-gated request (`needs_review = true`) whose
compliance collaborator returns two schema-valid reasons that do not include
the classifier's explanation `"Targeted insult."`.  The returned decision's
reasons are the compliance output verbatim, so the classifier's explanation
is not carried through, refuting the claim as stated. -/
theorem review_reasons_counterexample :
    AnalysisPipeline.analyze reviewCollab "c7" "you are disgusting" =
      ([.classifyCall, .retrieveCall, .complianceCall],
        .ok { content_id := "c7"
              decision :=
                { label := .flag
                  confidence := 1 / 2
                  category := "harassment"
                  reasons := ["Policy p1 applies.", "Severity is medium."] } }) ∧
    "Targeted insult." ∉ ["Policy p1 applies.", "Severity is medium."] := by
  exact ⟨rfl, by decide⟩

/-- C7 (amended): for a review-gated request the decision's reasons are the
compliance collaborator's reasons verbatim — hence non-empty whenever the
compliance output's reasons are non-empty; the classifier's explanation is
carried into the reasons only on the short-circuit path, not here. -/
theorem review_reasons_verbatim (c : Collaborators) (content_id text : String)
    (cls : ClassifierResult) (pols : List RetrievedPolicy) (comp : ComplianceResult)
    (hcls : c.classify text = .ok cls) (hnr : cls.needs_review = true)
    (hret : c.retrieve text cls.category = .ok pols)
    (hdec : c.decide text cls.category pols = .ok comp) :
    ∃ res : AnalysisResult,
      (AnalysisPipeline.analyze c content_id text).2 = .ok res ∧
      res.decision.reasons = comp.reasons ∧
      (comp.reasons ≠ [] → res.decision.reasons ≠ []) := by
  have h : AnalysisPipeline.analyze c content_id text =
      ([.classifyCall, .retrieveCall, .complianceCall],
        .ok { content_id := content_id
              decision :=
                { label := comp.label
                  confidence := comp.confidence
                  category := cls.category
                  reasons := comp.reasons } }) := by
    unfold AnalysisPipeline.analyze
    rw [hcls]
    simp only [hnr, if_true, hret, hdec]
  exact ⟨_, by rw [h], rfl, fun hne => hne⟩

/-- Witness for the amended C7 at the `reviewCollab` fixture. -/
theorem review_reasons_verbatim_witness :
    ∃ res : AnalysisResult,
      (AnalysisPipeline.analyze reviewCollab "c7" "you are disgusting").2 = .ok res ∧
      res.decision.reasons = ["Policy p1 applies.", "Severity is medium."] ∧
      ((["Policy p1 applies.", "Severity is medium."] : List String) ≠ [] →
        res.decision.reasons ≠ []) :=
  review_reasons_verbatim reviewCollab "c7" "you are disgusting"
    { category := "harassment", needs_review := true, explanation := "Targeted insult." }
    [harassmentPolicy]
    { label := .flag, confidence := 1 / 2,
      reasons := ["Policy p1 applies.", "Severity is medium."] }
    rfl rfl rfl rfl

/-- Eviction helper: `dropWhile` removes nothing when the predicate fails on every element. -/
theorem dropWhile_eq_self_of_forall {α : Type} (p : α → Bool) :
    ∀ l : List α, (∀ x ∈ l, p x = false) → l.dropWhile p = l
  | [], _ => rfl
  | a :: l, h =>
    List.dropWhile_cons_of_neg (by simp [h a (List.mem_cons_self a l)])

/-- The rate-limit step never produces a token/validation/length error: its
outcome is success, the empty-deque index error, or a 429. -/
theorem rateLimitCheck_outcomes (cfg : GuardConfig) (ip : String) (now : ℚ)
    (store : RateStore) :
    (rateLimitCheck cfg ip now store).1 = .ok () ∨
    (rateLimitCheck cfg ip now store).1 = .error .indexError ∨
    ∃ w, (rateLimitCheck cfg ip now store).1 = .error (.rateLimited w) := by
  unfold rateLimitCheck
  dsimp only
  split
  · split
    · exact Or.inr (Or.inl rfl)
    · exact Or.inr (Or.inr ⟨_, rfl⟩)
  · exact Or.inl rfl

/-- C10: when a demo token is configured and the supplied token does not
match it, `enforce_guardrails` fails with Unauthorized for every text —
including empty, whitespace-only, or over-length text — and leaves the rate
store untouched, because the token gate is evaluated before the validation,
length, and rate-limit checks. -/
theorem token_gate_precedes (cfg : GuardConfig) (req : GuardRequest)
    (htok : cfg.demoToken ≠ "")
    (hmis : pyStrip (req.headerDemoToken.getD "") ≠ cfg.demoToken)
    (text : String) (now : ℚ) (store : RateStore) :
    enforce_guardrails cfg req text now store = (.error .unauthorized, store) := by
  unfold enforce_guardrails
  rw [if_pos ⟨htok, hmis⟩]

/-- Witness for C10: a configured token, a request supplying none, and an
empty text still yield Unauthorized (not ValidationError). -/
theorem token_gate_precedes_witness :
    enforce_guardrails { defaultConfig with demoToken := "secret" } localRequest "" 0
      RateStore.empty = (.error .unauthorized, RateStore.empty) :=
  token_gate_precedes { defaultConfig with demoToken := "secret" } localRequest
    (by decide) (by decide) "" 0 RateStore.empty

/-- C5: for a request that passes the (optional) token gate,
`enforce_guardrails` fails with ValidationError on every empty or
whitespace-only text, fails with PayloadTooLarge on every text longer than
the configured maximum, and never rejects with PayloadTooLarge a text of
length exactly the configured maximum. -/
theorem text_guardrails (cfg : GuardConfig) (req : GuardRequest)
    (htok : cfg.demoToken = "" ∨ pyStrip (req.headerDemoToken.getD "") = cfg.demoToken)
    (text : String) (now : ℚ) (store : RateStore) :
    (pyStrip text = "" →
      enforce_guardrails cfg req text now store = (.error .validationError, store)) ∧
    (pyStrip text ≠ "" → cfg.maxTextChars < text.length →
      enforce_guardrails cfg req text now store = (.error .payloadTooLarge, store)) ∧
    (pyStrip text ≠ "" → text.length = cfg.maxTextChars →
      (enforce_guardrails cfg req text now store).1 ≠ .error .payloadTooLarge) := by
  have hgate : ¬(cfg.demoToken ≠ "" ∧ pyStrip (req.headerDemoToken.getD "") ≠ cfg.demoToken) := by
    rcases htok with h | h
    · exact fun hc => hc.1 h
    · exact fun hc => hc.2 h
  unfold enforce_guardrails
  rw [if_neg hgate]
  refine ⟨fun h => by rw [if_pos h], fun h1 h2 => by rw [if_neg h1, if_pos h2], ?_⟩
  intro h1 h2
  rw [if_neg h1, if_neg (by omega : ¬text.length > cfg.maxTextChars)]
  rcases rateLimitCheck_outcomes cfg (get_client_ip req) now store with h | h | ⟨w, h⟩ <;>
    rw [h] <;> simp

/-- Witness for C5 at the default configuration. -/
theorem text_guardrails_witness :
    ((pyStrip "hi" = "") →
      enforce_guardrails defaultConfig localRequest "hi" 0 RateStore.empty =
        (.error .validationError, RateStore.empty)) ∧
    ((pyStrip "hi" ≠ "") → defaultConfig.maxTextChars < "hi".length →
      enforce_guardrails defaultConfig localRequest "hi" 0 RateStore.empty =
        (.error .payloadTooLarge, RateStore.empty)) ∧
    ((pyStrip "hi" ≠ "") → "hi".length = defaultConfig.maxTextChars →
      (enforce_guardrails defaultConfig localRequest "hi" 0 RateStore.empty).1 ≠
        .error .payloadTooLarge) :=
  text_guardrails defaultConfig localRequest (Or.inl rfl) "hi" 0 RateStore.empty

/-- C9: a failing `enforce_guardrails` call never appends a timestamp.  A
token, validation, or length failure returns the store unchanged; any
rate-limit-stage failure leaves every other client's ledger unchanged and
changes the rejected client's ledger only by evicting expired timestamps
(replacing it with its `dropWhile` suffix). -/
theorem guardrails_failure_frame (cfg : GuardConfig) (req : GuardRequest)
    (text : String) (now : ℚ) (store : RateStore) (e : GuardError)
    (hfail : (enforce_guardrails cfg req text now store).1 = .error e) :
    ((e = .unauthorized ∨ e = .validationError ∨ e = .payloadTooLarge) →
      (enforce_guardrails cfg req text now store).2 = store) ∧
    (∀ k, k ≠ get_client_ip req →
      (enforce_guardrails cfg req text now store).2 k = store k) ∧
    ((enforce_guardrails cfg req text now store).2 (get_client_ip req) =
        store (get_client_ip req) ∨
      (enforce_guardrails cfg req text now store).2 (get_client_ip req) =
        (store (get_client_ip req)).dropWhile
          (fun t => t < now - (cfg.rateLimitWindowSeconds : ℚ))) := by
  unfold enforce_guardrails at hfail ⊢
  split_ifs at hfail ⊢ with h1 h2 h3
  · exact ⟨fun _ => rfl, fun k _ => rfl, Or.inl rfl⟩
  · exact ⟨fun _ => rfl, fun k _ => rfl, Or.inl rfl⟩
  · exact ⟨fun _ => rfl, fun k _ => rfl, Or.inl rfl⟩
  · -- rate-limit stage
    unfold rateLimitCheck at hfail ⊢
    dsimp only at hfail ⊢
    generalize hq2 : List.dropWhile
      (fun t => decide (t < now - (cfg.rateLimitWindowSeconds : ℚ)))
      (store (get_client_ip req)) = q2 at hfail ⊢
    by_cases hge : cfg.rateLimitMaxRequests ≤ q2.length
    · rw [if_pos hge] at hfail ⊢
      cases q2 with
      | nil =>
        refine ⟨?_, ?_, Or.inr ?_⟩
        · intro he
          dsimp only at hfail
          rcases he with rfl | rfl | rfl <;> simp at hfail
        · intro k hk
          show RateStore.set store (get_client_ip req) [] k = store k
          unfold RateStore.set
          rw [if_neg hk]
        · show RateStore.set store (get_client_ip req) [] (get_client_ip req) = []
          unfold RateStore.set
          rw [if_pos rfl]
      | cons t0 rest =>
        refine ⟨?_, ?_, Or.inr ?_⟩
        · intro he
          dsimp only at hfail
          rcases he with rfl | rfl | rfl <;> simp at hfail
        · intro k hk
          show RateStore.set store (get_client_ip req) (t0 :: rest) k = store k
          unfold RateStore.set
          rw [if_neg hk]
        · show RateStore.set store (get_client_ip req) (t0 :: rest) (get_client_ip req) =
            t0 :: rest
          unfold RateStore.set
          rw [if_pos rfl]
    · -- below the maximum the call succeeds, contradicting the failure
      rw [if_neg hge] at hfail
      simp at hfail

/-- Witness for C9: a rejected request (limit 0) only evicts; here nothing is
evicted and nothing is appended. -/
theorem guardrails_failure_frame_witness :
    ((GuardError.indexError = GuardError.unauthorized ∨
        GuardError.indexError = GuardError.validationError ∨
        GuardError.indexError = GuardError.payloadTooLarge) →
      (enforce_guardrails { defaultConfig with rateLimitMaxRequests := 0 } localRequest
          "hi" 0 RateStore.empty).2 = RateStore.empty) ∧
    (∀ k, k ≠ get_client_ip localRequest →
      (enforce_guardrails { defaultConfig with rateLimitMaxRequests := 0 } localRequest
          "hi" 0 RateStore.empty).2 k = RateStore.empty k) ∧
    ((enforce_guardrails { defaultConfig with rateLimitMaxRequests := 0 } localRequest
          "hi" 0 RateStore.empty).2 (get_client_ip localRequest) =
        RateStore.empty (get_client_ip localRequest) ∨
      (enforce_guardrails { defaultConfig with rateLimitMaxRequests := 0 } localRequest
          "hi" 0 RateStore.empty).2 (get_client_ip localRequest) =
        (RateStore.empty (get_client_ip localRequest)).dropWhile
          (fun t => t < 0 - (({ defaultConfig with
            rateLimitMaxRequests := 0 } : GuardConfig).rateLimitWindowSeconds : ℚ))) :=
  guardrails_failure_frame { defaultConfig with rateLimitMaxRequests := 0 } localRequest
    "hi" 0 RateStore.empty .indexError rfl

/-- A single `enforce_guardrails` call that passes the token/text checks and
finds the client's evicted ledger strictly below the maximum: it succeeds and
appends the current time. -/
theorem enforce_guardrails_ok_step (cfg : GuardConfig) (req : GuardRequest)
    (text : String)
    (htok : cfg.demoToken = "" ∨ pyStrip (req.headerDemoToken.getD "") = cfg.demoToken)
    (htext : pyStrip text ≠ "") (hsize : text.length ≤ cfg.maxTextChars)
    (now : ℚ) (store : RateStore) (done : List ℚ)
    (hdone : store (get_client_ip req) = done)
    (hkeep : ∀ x ∈ done, ¬(x < now - (cfg.rateLimitWindowSeconds : ℚ)))
    (hroom : done.length < cfg.rateLimitMaxRequests) :
    enforce_guardrails cfg req text now store =
      (.ok (), store.set (get_client_ip req) (done ++ [now])) := by
  have hgate : ¬(cfg.demoToken ≠ "" ∧ pyStrip (req.headerDemoToken.getD "") ≠ cfg.demoToken) := by
    rcases htok with h | h
    · exact fun hc => hc.1 h
    · exact fun hc => hc.2 h
  have hq2 : List.dropWhile (fun x => decide (x < now - (cfg.rateLimitWindowSeconds : ℚ)))
      (store (get_client_ip req)) = done := by
    rw [hdone]
    exact dropWhile_eq_self_of_forall _ done fun x hx => decide_eq_false (hkeep x hx)
  unfold enforce_guardrails
  rw [if_neg hgate, if_neg htext, if_neg (by omega : ¬text.length > cfg.maxTextChars)]
  unfold rateLimitCheck
  dsimp only
  rw [hq2, if_neg (by omega : ¬cfg.rateLimitMaxRequests ≤ done.length)]

/-- A single `enforce_guardrails` call that passes the token/text checks and
finds the client's evicted ledger at or above the maximum: it rejects with a
retry-after hint computed from the oldest retained timestamp, having only
evicted. -/
theorem enforce_guardrails_reject_step (cfg : GuardConfig) (req : GuardRequest)
    (text : String)
    (htok : cfg.demoToken = "" ∨ pyStrip (req.headerDemoToken.getD "") = cfg.demoToken)
    (htext : pyStrip text ≠ "") (hsize : text.length ≤ cfg.maxTextChars)
    (now : ℚ) (store : RateStore)
    (q : List ℚ) (hq : store (get_client_ip req) = q)
    (oldest : ℚ) (rest : List ℚ)
    (hkeep : ∀ x ∈ q, ¬(x < now - (cfg.rateLimitWindowSeconds : ℚ)))
    (hshape : q = oldest :: rest)
    (hfull : cfg.rateLimitMaxRequests ≤ q.length) :
    enforce_guardrails cfg req text now store =
      (.error (.rateLimited (oldest + (cfg.rateLimitWindowSeconds : ℚ) - now).floor),
        store.set (get_client_ip req) q) := by
  have hgate : ¬(cfg.demoToken ≠ "" ∧ pyStrip (req.headerDemoToken.getD "") ≠ cfg.demoToken) := by
    rcases htok with h | h
    · exact fun hc => hc.1 h
    · exact fun hc => hc.2 h
  have hq2 : List.dropWhile (fun x => decide (x < now - (cfg.rateLimitWindowSeconds : ℚ)))
      (store (get_client_ip req)) = q := by
    rw [hq]
    exact dropWhile_eq_self_of_forall _ q fun x hx => decide_eq_false (hkeep x hx)
  unfold enforce_guardrails
  rw [if_neg hgate, if_neg htext, if_neg (by omega : ¬text.length > cfg.maxTextChars)]
  unfold rateLimitCheck
  dsimp only
  rw [hq2, if_pos hfull, hshape]

/-- During a burst in which every timestamp — already recorded or belonging
to a later call — is within the window of every call, and the ledger stays
below the maximum, every call succeeds and the client's ledger accumulates
the call times in order. -/
theorem runCalls_all_ok (cfg : GuardConfig) (req : GuardRequest) (text : String)
    (htok : cfg.demoToken = "" ∨ pyStrip (req.headerDemoToken.getD "") = cfg.demoToken)
    (htext : pyStrip text ≠ "") (hsize : text.length ≤ cfg.maxTextChars) :
    ∀ (ts : List ℚ) (store : RateStore) (done : List ℚ),
      store (get_client_ip req) = done →
      done.length + ts.length ≤ cfg.rateLimitMaxRequests →
      (∀ x, (x ∈ done ∨ x ∈ ts) → ∀ t ∈ ts, ¬(x < t - (cfg.rateLimitWindowSeconds : ℚ))) →
      (runCalls cfg req text ts store).2 = List.replicate ts.length (.ok ()) ∧
      (runCalls cfg req text ts store).1 (get_client_ip req) = done ++ ts
  | [], store, done, hdone, _, _ => by
    refine ⟨rfl, ?_⟩
    show store (get_client_ip req) = done ++ []
    rw [hdone, List.append_nil]
  | t :: ts, store, done, hdone, hcount, hwin => by
    simp only [List.length_cons] at hcount
    have hstep := enforce_guardrails_ok_step cfg req text htok htext hsize t store done hdone
      (fun x hx => hwin x (Or.inl hx) t (List.mem_cons_self t ts))
      (by omega)
    have htail := runCalls_all_ok cfg req text htok htext hsize ts
      (store.set (get_client_ip req) (done ++ [t])) (done ++ [t])
      (by unfold RateStore.set; rw [if_pos rfl])
      (by simp only [List.length_append, List.length_singleton]; omega)
      (by
        intro x hx t2 ht2
        refine hwin x ?_ t2 (List.mem_cons_of_mem _ ht2)
        rcases hx with hx | hx
        · rcases List.mem_append.mp hx with h | h
          · exact Or.inl h
          · rw [List.mem_singleton] at h
            subst h
            exact Or.inr (List.mem_cons_self _ _)
        · exact Or.inr (List.mem_cons_of_mem _ hx))
    show (runCalls cfg req text (t :: ts) store).2 = _ ∧
      (runCalls cfg req text (t :: ts) store).1 (get_client_ip req) = _
    unfold runCalls
    dsimp only
    rw [hstep]
    dsimp only
    refine ⟨?_, ?_⟩
    · rw [htail.1, List.length_cons, List.replicate_succ]
    · rw [htail.2, List.append_assoc, List.singleton_append]

/-- C4: the sliding-window limiter, per client.  For a burst of exactly the
configured maximum of requests all within the window of one another, every
request in the burst is allowed; a further request still within the window —
the (max+1)-th — is rejected with RateLimited, its retry-after hint computed
from the oldest retained timestamp; and once the window has elapsed past that
oldest timestamp, a subsequent request is allowed again (each check evicts
expired timestamps before counting, and appends the current time only on
success). -/
theorem rate_limit_scenario (cfg : GuardConfig) (req : GuardRequest) (text : String)
    (htok : cfg.demoToken = "" ∨ pyStrip (req.headerDemoToken.getD "") = cfg.demoToken)
    (htext : pyStrip text ≠ "") (hsize : text.length ≤ cfg.maxTextChars)
    (t0 : ℚ) (mid : List ℚ) (tlast now2 : ℚ)
    (hcount : (t0 :: mid).length = cfg.rateLimitMaxRequests)
    (hwin : ∀ x ∈ t0 :: mid ++ [tlast], ∀ t ∈ t0 :: mid ++ [tlast],
      ¬(x < t - (cfg.rateLimitWindowSeconds : ℚ)))
    (hpast : t0 < now2 - (cfg.rateLimitWindowSeconds : ℚ)) :
    (runCalls cfg req text (t0 :: mid) RateStore.empty).2 =
      List.replicate cfg.rateLimitMaxRequests (.ok ()) ∧
    (enforce_guardrails cfg req text tlast
        (runCalls cfg req text (t0 :: mid) RateStore.empty).1).1 =
      .error (.rateLimited (t0 + (cfg.rateLimitWindowSeconds : ℚ) - tlast).floor) ∧
    (enforce_guardrails cfg req text now2
        (enforce_guardrails cfg req text tlast
          (runCalls cfg req text (t0 :: mid) RateStore.empty).1).2).1 = .ok () := by
  have hsub : ∀ y ∈ t0 :: mid, y ∈ t0 :: mid ++ [tlast] := by
    intro y hy
    rcases List.mem_cons.mp hy with rfl | h
    · exact List.mem_cons_self _ _
    · exact List.mem_cons_of_mem _ (List.mem_append_left _ h)
  have htlast : tlast ∈ t0 :: mid ++ [tlast] :=
    List.mem_cons_of_mem _ (List.mem_append_right _ (List.mem_singleton_self _))
  have hburst := runCalls_all_ok cfg req text htok htext hsize (t0 :: mid)
    RateStore.empty [] rfl (by simp [hcount])
    (fun x hx t ht =>
      hwin x (hx.elim (fun h => absurd h (List.not_mem_nil x)) (hsub x)) t (hsub t ht))
  have hS1 : (runCalls cfg req text (t0 :: mid) RateStore.empty).1 (get_client_ip req) =
      t0 :: mid := by
    rw [hburst.2, List.nil_append]
  have hkeep1 : ∀ x ∈ t0 :: mid, ¬(x < tlast - (cfg.rateLimitWindowSeconds : ℚ)) :=
    fun x hx => hwin x (hsub x hx) tlast htlast
  have hstep2 := enforce_guardrails_reject_step cfg req text htok htext hsize tlast
    (runCalls cfg req text (t0 :: mid) RateStore.empty).1 (t0 :: mid) hS1 t0 mid
    hkeep1 rfl (le_of_eq hcount.symm)
  refine ⟨?_, ?_, ?_⟩
  · rw [hburst.1, hcount]
  · rw [hstep2]
  · rw [hstep2]
    have hS2 : ((runCalls cfg req text (t0 :: mid) RateStore.empty).1.set
        (get_client_ip req) (t0 :: mid)) (get_client_ip req) = t0 :: mid := by
      unfold RateStore.set
      rw [if_pos rfl]
    have hgate : ¬(cfg.demoToken ≠ "" ∧ pyStrip (req.headerDemoToken.getD "") ≠ cfg.demoToken) := by
      rcases htok with h | h
      · exact fun hc => hc.1 h
      · exact fun hc => hc.2 h
    have hdlen : (List.dropWhile
        (fun x => decide (x < now2 - (cfg.rateLimitWindowSeconds : ℚ)))
        (t0 :: mid)).length < cfg.rateLimitMaxRequests := by
      rw [List.dropWhile_cons_of_pos
        (p := fun x => decide (x < now2 - (cfg.rateLimitWindowSeconds : ℚ)))
        (a := t0) (decide_eq_true hpast)]
      have hle := (List.dropWhile_sublist (l := mid)
        (fun x => decide (x < now2 - (cfg.rateLimitWindowSeconds : ℚ)))).length_le
      have hmid : mid.length + 1 = cfg.rateLimitMaxRequests := by
        simpa using hcount
      omega
    unfold enforce_guardrails
    rw [if_neg hgate, if_neg htext, if_neg (by omega : ¬text.length > cfg.maxTextChars)]
    unfold rateLimitCheck
    dsimp only
    rw [hS2, if_neg (by omega : ¬cfg.rateLimitMaxRequests ≤ (List.dropWhile
      (fun x => decide (x < now2 - (cfg.rateLimitWindowSeconds : ℚ)))
      (t0 :: mid)).length)]

/-- Witness for C4: limit 2 per 60-second window, burst at times 0 and 1,
rejected at time 2 with retry hint 58, allowed again at time 61. -/
theorem rate_limit_scenario_witness :
    (runCalls { defaultConfig with rateLimitMaxRequests := 2 } localRequest "hi"
        [(0 : ℚ), 1] RateStore.empty).2 =
      List.replicate 2 (.ok ()) ∧
    (enforce_guardrails { defaultConfig with rateLimitMaxRequests := 2 } localRequest "hi" 2
        (runCalls { defaultConfig with rateLimitMaxRequests := 2 } localRequest "hi"
          [(0 : ℚ), 1] RateStore.empty).1).1 =
      .error (.rateLimited ((0 : ℚ) + ((60 : ℕ) : ℚ) - 2).floor) ∧
    (enforce_guardrails { defaultConfig with rateLimitMaxRequests := 2 } localRequest "hi" 61
        (enforce_guardrails { defaultConfig with rateLimitMaxRequests := 2 } localRequest "hi" 2
          (runCalls { defaultConfig with rateLimitMaxRequests := 2 } localRequest "hi"
            [(0 : ℚ), 1] RateStore.empty).1).2).1 = .ok () :=
  rate_limit_scenario { defaultConfig with rateLimitMaxRequests := 2 } localRequest "hi"
    (Or.inl rfl) (by decide) (by decide) 0 [1] 2 61 rfl
    (by intro x hx t ht; fin_cases hx <;> fin_cases ht <;> norm_num [defaultConfig])
    (by norm_num [defaultConfig])

/-- The pipeline invokes each collaborator at most once on every path (there
is no retry anywhere). -/
theorem analyze_count_le_one (c : Collaborators) (content_id text : String) (ev : Event) :
    (AnalysisPipeline.analyze c content_id text).1.count ev ≤ 1 := by
  unfold AnalysisPipeline.analyze
  cases c.classify text with
  | error e =>
    show List.count ev [Event.classifyCall] ≤ 1
    cases ev <;> decide
  | ok cls =>
    dsimp only
    cases cls.needs_review with
    | false =>
      show List.count ev [Event.classifyCall] ≤ 1
      cases ev <;> decide
    | true =>
      cases c.retrieve text cls.category with
      | error e =>
        show List.count ev [Event.classifyCall, Event.retrieveCall] ≤ 1
        cases ev <;> decide
      | ok pols =>
        dsimp only
        cases c.decide text cls.category pols with
        | error e =>
          show List.count ev
            [Event.classifyCall, Event.retrieveCall, Event.complianceCall] ≤ 1
          cases ev <;> decide
        | ok comp =>
          show List.count ev
            [Event.classifyCall, Event.retrieveCall, Event.complianceCall] ≤ 1
          cases ev <;> decide

/-- C6: on the analyze endpoint, a guardrail failure is surfaced directly
with no collaborator invoked (empty trace, same store as the guardrail left
it); no collaborator is ever invoked more than once (no retry); the caller
receives either a complete `AnalysisResult` or an error; and when the
pipeline fails, the endpoint never returns a success — no partial decision
exists. -/
theorem analyze_content_error_handling (env : Env) (c : Collaborators)
    (cfg : GuardConfig) (req : GuardRequest) (item_id text : String) (now : ℚ)
    (store : RateStore) :
    (∀ e store2, enforce_guardrails cfg req text now store = (.error e, store2) →
      analyze_content env c cfg req item_id text now store =
        ([], .error (.guard e), store2)) ∧
    (∀ ev, (analyze_content env c cfg req item_id text now store).1.count ev ≤ 1) ∧
    ((∃ res, (analyze_content env c cfg req item_id text now store).2.1 = .ok res) ∨
      ∃ err, (analyze_content env c cfg req item_id text now store).2.1 = .error err) ∧
    (∀ events e, AnalysisPipeline.analyze c item_id text = (events, .error e) →
      ∀ events2 res store2,
        analyze_content env c cfg req item_id text now store ≠
          (events2, .ok res, store2)) := by
  refine ⟨?_, ?_, ?_, ?_⟩
  · intro e store2 h
    unfold analyze_content
    rw [h]
  · intro ev
    unfold analyze_content
    rcases henf : enforce_guardrails cfg req text now store with ⟨r, store2⟩
    cases r with
    | error e =>
      show List.count ev ([] : List Event) ≤ 1
      cases ev <;> decide
    | ok u =>
      dsimp only
      cases hinit : AnalysisPipeline.init env with
      | error e2 =>
        show List.count ev ([] : List Event) ≤ 1
        cases ev <;> decide
      | ok agents =>
        rcases hana : AnalysisPipeline.analyze c item_id text with ⟨events, r2⟩
        have hcnt := analyze_count_le_one c item_id text ev
        rw [hana] at hcnt
        cases r2 with
        | error e3 => exact hcnt
        | ok res => exact hcnt
  · cases h : (analyze_content env c cfg req item_id text now store).2.1 with
    | error err => exact Or.inr ⟨err, rfl⟩
    | ok res => exact Or.inl ⟨res, rfl⟩
  · intro events e hpipe events2 res store2 hcontra
    unfold analyze_content at hcontra
    rcases henf : enforce_guardrails cfg req text now store with ⟨r, s2⟩
    rw [henf] at hcontra
    cases r with
    | error e4 => simp at hcontra
    | ok u =>
      cases hinit : AnalysisPipeline.init env with
      | error e5 =>
        rw [hinit] at hcontra
        simp at hcontra
      | ok agents =>
        rw [hinit, hpipe] at hcontra
        simp at hcontra

/-- Witness for C6 at a concrete environment, request and collaborator
behaviour. -/
theorem analyze_content_error_handling_witness :
    (∀ e store2,
      enforce_guardrails defaultConfig localRequest "hello" 0 RateStore.empty =
          (.error e, store2) →
      analyze_content keyedEnv benignCollab defaultConfig localRequest "t1" "hello" 0
          RateStore.empty =
        ([], .error (.guard e), store2)) ∧
    (∀ ev, (analyze_content keyedEnv benignCollab defaultConfig localRequest "t1" "hello" 0
        RateStore.empty).1.count ev ≤ 1) ∧
    ((∃ res, (analyze_content keyedEnv benignCollab defaultConfig localRequest "t1" "hello" 0
        RateStore.empty).2.1 = .ok res) ∨
      ∃ err, (analyze_content keyedEnv benignCollab defaultConfig localRequest "t1" "hello" 0
        RateStore.empty).2.1 = .error err) ∧
    (∀ events e,
      AnalysisPipeline.analyze benignCollab "t1" "hello" = (events, .error e) →
      ∀ events2 res store2,
        analyze_content keyedEnv benignCollab defaultConfig localRequest "t1" "hello" 0
            RateStore.empty ≠
          (events2, .ok res, store2)) :=
  analyze_content_error_handling keyedEnv benignCollab defaultConfig localRequest
    "t1" "hello" 0 RateStore.empty

/-- C8 counterexample: with `GROQ_API_KEY` absent, constructing either agent
does raise the configuration error — but nothing constructs them at startup:
importing the API module succeeds (no credential is read), and the error
instead surfaces while the first analyze request is handled, after its
guardrail checks.  A request is therefore served (and fails); the failure is
not raised before request serving, refuting the claim as stated. -/
theorem fail_fast_startup_counterexample :
    ClassifierAgent.init emptyEnv = .error .missingApiKey ∧
    ComplianceAgent.init emptyEnv = .error .missingApiKey ∧
    appStartup emptyEnv = .ok ["/health", "/analyze"] ∧
    (analyze_content emptyEnv benignCollab defaultConfig localRequest "c8" "hello" 0
        RateStore.empty).2.1 = .error (.config .missingApiKey) ∧
    (analyze_content emptyEnv benignCollab defaultConfig localRequest "c8" "hello" 0
        RateStore.empty).1 = [] := by
  exact ⟨rfl, rfl, rfl, rfl, rfl⟩

/-- C8 (amended): when `GROQ_API_KEY` is absent, constructing either LLM
collaborator — and hence the pipeline — raises a configuration error rather
than silently degrading; but `get_pipeline` defers construction (cached) to
the first analyze request, so the failure surfaces when that request is
handled, with app startup itself succeeding. -/
theorem missing_credential_fails_construction (env : Env)
    (hkey : env "GROQ_API_KEY" = none) :
    ClassifierAgent.init env = .error .missingApiKey ∧
    ComplianceAgent.init env = .error .missingApiKey ∧
    AnalysisPipeline.init env = .error .missingApiKey ∧
    (∃ routes, appStartup env = .ok routes) ∧
    (∀ c cfg req item_id text now store,
      (enforce_guardrails cfg req text now store).1 = .ok () →
      (analyze_content env c cfg req item_id text now store).2.1 =
        .error (.config .missingApiKey)) := by
  have hcls : ClassifierAgent.init env = .error .missingApiKey := by
    unfold ClassifierAgent.init
    rw [hkey]
  have hcmp : ComplianceAgent.init env = .error .missingApiKey := by
    unfold ComplianceAgent.init
    rw [hkey]
  have hpipe : AnalysisPipeline.init env = .error .missingApiKey := by
    unfold AnalysisPipeline.init
    rw [hcls]
    rfl
  refine ⟨hcls, hcmp, hpipe, ⟨_, rfl⟩, ?_⟩
  intro c cfg req item_id text now store hok
  unfold analyze_content
  rcases henf : enforce_guardrails cfg req text now store with ⟨r, store2⟩
  rw [henf] at hok
  cases r with
  | error e => exact absurd hok (by simp)
  | ok u =>
    rw [hpipe]

/-- Witness for the amended C8: the empty environment, a passing request. -/
theorem missing_credential_fails_construction_witness :
    (analyze_content emptyEnv benignCollab defaultConfig localRequest "c8" "hello" 0
        RateStore.empty).2.1 = .error (.config .missingApiKey) :=
  (missing_credential_fails_construction emptyEnv rfl).2.2.2.2 benignCollab
    defaultConfig localRequest "c8" "hello" 0 RateStore.empty rfl

end SafetyAnalyst
